import Mathlib

/-!
Verification of the rs-lisp rule-expression engine (lexer, parser, evaluator).

The sources embedded here are:
* `src/src/ast/token.rs` — the lexer snapshot (`TokenTag`, `Lexer` with
  `read`, `back_read`, `read_next`, `skip_blank_and_read`, `scan`);
  its `scan` is embedded as `AstToken.scan`.
* `src/src/ast.rs` — the `Value` union, the AST node evaluators
  (`And::eval`, `Or::eval`, `Mod::eval`, `Equals::eval`, `In::eval`,
  `Num::eval`, `Str::eval`, `Var::eval`, `Bool::eval`) and the `Parser`
  (`parse`, `expr`, `args_add`, `move_token`, `match_term`).
* the `crate::token` module that `ast.rs` imports is not among the sources;
  only its stale snapshot `src/src/ast/token.rs` and its caller `ast.rs`
  are.  Its scan is modelled as `CrateToken.scan`: identical to the
  snapshot except for the parenthesis branch required by the spec and by
  the parser's `TokenTag::LEFT_BRACKET` / `TokenTag::RIGHT_BRACKET` match
  arms.

Machine integers: the Rust `i64` values are modelled as `Int` (the `Num`
leaf parses its lexeme with an explicit i64 range check, so all values fed
to arithmetic are in range); the `u32` digit accumulator wraps modulo
`2 ^ 32` as in release builds.  The Rust `%` operator on `i64` is truncated
remainder and aborts the process on a zero divisor or on `i64::MIN % -1`;
both aborts are modelled as a distinguished `Fault.panicked` outcome.
-/

namespace RsLisp

/-- Token tags.  The enum in `src/src/ast/token.rs` (lines 4-14) has exactly
the first eight variants — it has no parenthesis variants at all.  The
parser in `src/src/ast.rs` additionally matches `LEFT_BRACKET`,
`RIGHT_BRACKET` and `STR` tags of the `crate::token` module that is absent
from the sources; those three variants are included here so that both
lexers and the parser share one token type.  `AstToken.scan` (the snapshot)
never produces the last three variants. -/
inductive TokenTag where
  | AND
  | OR
  | MOD
  | IN
  | EQUALS
  | VAR
  | OTHER
  | NUM
  | LEFT_BRACKET
  | RIGHT_BRACKET
  | STR
deriving DecidableEq, Repr

/-- A token: the trait objects `OpType`, `Var`, `Num`, `Str`, `Other` of
`token.rs` all expose exactly a tag (`token_tag()`) and a lexeme
(`lexeme()`), so one structure represents them all. -/
structure Token where
  tag : TokenTag
  lexeme : String
deriving DecidableEq, Repr

/-- `ErrCode` of `src/src/ast/token.rs` (lines 16-21). -/
inductive ErrCode where
  | READ_TO_END (msg : String)
  | OTHER (msg : String)
deriving DecidableEq, Repr

/-- Lexer state of `src/src/ast/token.rs` (lines 196-203): the character
vector, the cursor `cur_step : i32` (starting at `-1`) and the most
recently read character `peek`.  The `reserved` keyword map of the source
is never consulted by `scan` and is omitted. -/
structure Lexer where
  chars : List Char
  cur_step : Int
  peek : Option Char
deriving Repr

/-- `Lexer::create` (lines 205-227): cursor `-1`, no peek. -/
def Lexer.create (content : String) : Lexer :=
  ⟨content.data, -1, none⟩

/-- Indexing `chars.get(step as usize)`: a negative `i32` cast to `usize`
is a huge index, so the lookup misses. -/
def charAt (c : List Char) (step : Int) : Option Char :=
  if step < 0 then none else List.get? c step.toNat

/-- `Lexer::read` (lines 229-241): advance the cursor and refresh `peek`;
past the end it fails with `READ_TO_END`. -/
def Lexer.read (step : Int) (peek : Option Char) (c : List Char) :
    Except ErrCode (Int × Option Char) :=
  match charAt c (step + 1) with
  | some i => .ok (step + 1, some i)
  | none => .error (.READ_TO_END "Has read to the end")

/-- The loop body of `Lexer::back_read`, recursing on an explicit bound so
that the kernel can evaluate it.  The wrapper `Lexer.back_read` passes a
bound that the loop can never exhaust, so the `fuel = 0` marker branch is
unreachable. -/
def back_read_go (fuel : Nat) (step : Int) (peek : Option Char) (c : List Char)
    (ori_step : Int) : Except ErrCode (Int × Option Char) :=
  match fuel with
  | 0 => .error (.OTHER "fuel exhausted")
  | fuel + 1 =>
    if step = ori_step then .ok (step, peek)
    else
      match charAt c (step - 1) with
      | some i => back_read_go fuel (step - 1) (some i) c ori_step
      | none => .error (.OTHER "Back failed!")

/-- `Lexer::back_read` (lines 242-264): walk the cursor back to `ori_step`,
refreshing `peek` at each step; a missing character fails.  The loop either
reaches `ori_step` (at most `(step - ori_step).toNat` decrements), or, when
`ori_step` is above `step`, decrements past index `0` and fails (at most
`(step + 1).toNat + 1` further decrements, since `charAt` misses on any
negative index); the bound covers both, so the wrapper is the source loop. -/
def Lexer.back_read (step : Int) (peek : Option Char) (c : List Char)
    (ori_step : Int) : Except ErrCode (Int × Option Char) :=
  back_read_go ((step - ori_step).toNat + (step + 1).toNat + 2) step peek c ori_step

/-- `Lexer::read_next` (lines 266-277): read one character; if it is the
expected one, consume it (set `peek` to a blank) and answer `true`. -/
def Lexer.read_next (l : Lexer) (c : Char) : Except ErrCode (Bool × Lexer) :=
  match Lexer.read l.cur_step l.peek l.chars with
  | .error e => .error e
  | .ok (step, peek) =>
    if peek = some c then .ok (true, { l with cur_step := step, peek := some ' ' })
    else .ok (false, { l with cur_step := step, peek := peek })

/-- The chain `read_next(a)? && read_next(b)? && ...` used by the keyword
branches of `scan`: short-circuits on the first mismatch. -/
def Lexer.read_next_seq (l : Lexer) : List Char → Except ErrCode (Bool × Lexer)
  | [] => .ok (true, l)
  | c :: rest =>
    match l.read_next c with
    | .error e => .error e
    | .ok (b, l') => if b then l'.read_next_seq rest else .ok (false, l')

/-- The loop body of `Lexer::skip_blank_and_read`, recursing on an explicit
bound so that the kernel can evaluate it; the wrapper's bound is never
exhausted. -/
def skip_blank_go (fuel : Nat) (step : Int) (peek : Option Char)
    (chars : List Char) : Except ErrCode (Int × Option Char) :=
  match fuel with
  | 0 => .error (.OTHER "fuel exhausted")
  | fuel + 1 =>
    match Lexer.read step peek chars with
    | .error e => .error e
    | .ok (step2, peek2) =>
      if peek2.getD ' ' = ' ' ∨ peek2.getD ' ' = '\t' then
        skip_blank_go fuel step2 peek2 chars
      else .ok (step2, peek2)

/-- `Lexer::skip_blank_and_read` (lines 282-298): keep reading while the
character is a space or a tab.  Every iteration moves the cursor up by one
and `read` fails as soon as the cursor passes `chars.length`, so the loop
runs at most `chars.length + 1` times whatever `step` is; the bound covers
that, so the wrapper is the source loop. -/
def Lexer.skip_blank_and_read (step : Int) (peek : Option Char)
    (chars : List Char) : Except ErrCode (Int × Option Char) :=
  skip_blank_go (chars.length + 2) step peek chars

/-- Rust `str::parse::<i64>`: an optional sign, then one or more ASCII
digits, and the value must fit in `i64`. -/
def parseI64 (s : String) : Option Int :=
  match s.data with
  | [] => none
  | c :: rest =>
    let (neg, digits) :=
      if c = '-' then (true, rest)
      else if c = '+' then (false, rest)
      else (false, c :: rest)
    if digits = [] ∨ ¬ digits.all Char.isDigit then none
    else
      let n : Nat := digits.foldl (fun a d => 10 * a + (d.toNat - 48)) 0
      if neg then
        if n ≤ 2 ^ 63 then some (-(n : Int)) else none
      else
        if n ≤ 2 ^ 63 - 1 then some (n : Int) else none

/-- `Num::create_with_token_and_val` of `token.rs` (lines 104-120): the
lexeme must parse as an `i64`. -/
def num_create_with_token_and_val (tag : TokenTag) (lexeme : String) :
    Except ErrCode Token :=
  if (parseI64 lexeme).isSome then .ok ⟨tag, lexeme⟩
  else .error (.OTHER "Not a number lexeme")

/-- The numeric accumulation loop of `scan` (lines 375-391): add the digit
under `peek` into the `u32` accumulator (wrapping as in release builds),
read ahead, and on the first non-digit back up one step and stop.  Reading
past the end of the input propagates `READ_TO_END` out of `scan`. -/
def num_loop_go (fuel : Nat) (l : Lexer) (v : Nat) : Except ErrCode (Nat × Lexer) :=
  match fuel with
  | 0 => .error (.OTHER "fuel exhausted")
  | fuel + 1 =>
    let v := (10 * v + ((l.peek.getD '0').toNat - 48)) % 4294967296
    let ori_step := l.cur_step
    match Lexer.read l.cur_step l.peek l.chars with
    | .error e => .error e
    | .ok (step2, peek2) =>
      if (peek2.getD ' ').isDigit then
        num_loop_go fuel { l with cur_step := step2, peek := peek2 } v
      else
        match Lexer.back_read step2 peek2 l.chars ori_step with
        | .ok (s3, p3) => .ok (v, { l with cur_step := s3, peek := p3 })
        | .error e => .error e

/-- The numeric loop of `scan`: every iteration advances the cursor by one
and `read` fails past `chars.length`, so `chars.length + 2` iterations are
never reached and the wrapper is the source loop. -/
def Lexer.num_loop (l : Lexer) (v : Nat) : Except ErrCode (Nat × Lexer) :=
  num_loop_go (l.chars.length + 2) l v

/-- The variable-name loop of `scan` (lines 393-412): after `${`,
accumulate alphanumeric characters until `}` produces a `VAR` token; any
other character is an illegal-identifier lexical error. -/
def var_loop_go (fuel : Nat) (l : Lexer) (id : String) :
    Except ErrCode (Token × Lexer) :=
  match fuel with
  | 0 => .error (.OTHER "fuel exhausted")
  | fuel + 1 =>
    match Lexer.read l.cur_step l.peek l.chars with
    | .error e => .error e
    | .ok (step2, peek2) =>
      let l' : Lexer := { l with cur_step := step2, peek := peek2 }
      let peek_num := l'.peek.getD ' '
      if peek_num.isDigit ∨ ('a' ≤ peek_num ∧ peek_num ≤ 'z')
          ∨ ('A' ≤ peek_num ∧ peek_num ≤ 'Z') then
        var_loop_go fuel l' (id.push peek_num)
      else if peek_num = '}' then .ok (⟨.VAR, id⟩, l')
      else .error (.OTHER
        ("Illegal arg format for id, id should only contains a-zA-Z0-9, char index:"
          ++ toString l'.cur_step))

/-- The variable-name loop of `scan`: every iteration advances the cursor
by one and `read` fails past `chars.length`, so `chars.length + 2`
iterations are never reached and the wrapper is the source loop. -/
def Lexer.var_loop (l : Lexer) (id : String) : Except ErrCode (Token × Lexer) :=
  var_loop_go (l.chars.length + 2) l id

/-- One reserved-keyword branch of `scan` (e.g. lines 329-340 for `A`):
remember the cursor, try the remaining letters with forward reads; on
success emit the operator token, on a mismatch back-read to the remembered
cursor and emit a one-character `OTHER` token holding the character found
there (the initial letter). -/
def Lexer.key_branch (l : Lexer) (rest : List Char) (tag : TokenTag)
    (lexeme : String) : Except ErrCode (Token × Lexer) :=
  let ori_step := l.cur_step
  match l.read_next_seq rest with
  | .error e => .error e
  | .ok (b, l') =>
    if b then .ok (⟨tag, lexeme⟩, l')
    else
      match Lexer.back_read l'.cur_step l'.peek l'.chars ori_step with
      | .error e => .error e
      | .ok (s2, p2) =>
        let l2 : Lexer := { l' with cur_step := s2, peek := p2 }
        .ok (⟨.OTHER, String.mk [l2.peek.getD ' ']⟩, l2)

namespace AstToken

/-- `Lexer::scan` of `src/src/ast/token.rs` (lines 300-418), exactly as in
that file: skip blanks; try the five reserved keywords (`IN`, `MOD`, `AND`,
`OR`, `EQUALS`) from their initial letter with back-read on mismatch; then
the numeric token loop; then the `${...}` variable loop; otherwise a
one-character `OTHER` token.  This enum-and-scan has no
parenthesis branch: `(` and `)` fall through to `OTHER`. -/
def scan (l : Lexer) : Except ErrCode (Token × Lexer) :=
  match Lexer.skip_blank_and_read l.cur_step l.peek l.chars with
  | .error e => .error e
  | .ok (step, peek) =>
  let l : Lexer := { l with cur_step := step, peek := peek }
  match l.peek with
  | some 'I' => l.key_branch ['N'] .IN "IN"
  | some 'M' => l.key_branch ['O', 'D'] .MOD "MOD"
  | some 'A' => l.key_branch ['N', 'D'] .AND "AND"
  | some 'O' => l.key_branch ['R'] .OR "OR"
  | some 'E' => l.key_branch ['Q', 'U', 'A', 'L', 'S'] .EQUALS "EQUALS"
  | _ =>
    if (l.peek.getD ' ').isDigit then
      match l.num_loop 0 with
      | .error e => .error e
      | .ok (v, l') =>
        match num_create_with_token_and_val .NUM (toString v) with
        | .error e => .error e
        | .ok tok => .ok (tok, l')
    else if l.peek.getD ' ' = '$' then
      match l.read_next '{' with
      | .error e => .error e
      | .ok (b, l') =>
        if b then l'.var_loop ""
        else .ok (⟨.OTHER, String.mk [l'.peek.getD ' ']⟩, l')
    else
      .ok (⟨.OTHER, String.mk [l.peek.getD ' ']⟩, l)

end AstToken

namespace CrateToken

/-- Modelled from the spec: the `scan` of the `crate::token` module that
`src/src/ast.rs` imports, which is absent from the sources.  It is the
snapshot scan of `src/src/ast/token.rs` extended with spec section 4.1
step 5 — "If the current character is `(` or `)`, emit
`LEFT_PAREN`/`RIGHT_PAREN`" — using the tag names `LEFT_BRACKET` /
`RIGHT_BRACKET` that the parser's match arms in `ast.rs` require. -/
def scan (l : Lexer) : Except ErrCode (Token × Lexer) :=
  match Lexer.skip_blank_and_read l.cur_step l.peek l.chars with
  | .error e => .error e
  | .ok (step, peek) =>
  let l : Lexer := { l with cur_step := step, peek := peek }
  match l.peek with
  | some 'I' => l.key_branch ['N'] .IN "IN"
  | some 'M' => l.key_branch ['O', 'D'] .MOD "MOD"
  | some 'A' => l.key_branch ['N', 'D'] .AND "AND"
  | some 'O' => l.key_branch ['R'] .OR "OR"
  | some 'E' => l.key_branch ['Q', 'U', 'A', 'L', 'S'] .EQUALS "EQUALS"
  | some '(' => .ok (⟨.LEFT_BRACKET, "("⟩, l)
  | some ')' => .ok (⟨.RIGHT_BRACKET, ")"⟩, l)
  | _ =>
    if (l.peek.getD ' ').isDigit then
      match l.num_loop 0 with
      | .error e => .error e
      | .ok (v, l') =>
        match num_create_with_token_and_val .NUM (toString v) with
        | .error e => .error e
        | .ok tok => .ok (tok, l')
    else if l.peek.getD ' ' = '$' then
      match l.read_next '{' with
      | .error e => .error e
      | .ok (b, l') =>
        if b then l'.var_loop ""
        else .ok (⟨.OTHER, String.mk [l'.peek.getD ' ']⟩, l')
    else
      .ok (⟨.OTHER, String.mk [l.peek.getD ' ']⟩, l)

end CrateToken

/-- `Value` of `src/src/ast.rs` (lines 7-13): the runtime value union.
`derive(PartialEq)` gives structural equality: equal tag and payload. -/
inductive Value where
  | INT (i : Int)
  | BOOL (b : Bool)
  | STR (s : String)
deriving DecidableEq, Repr

/-- `AstError` of `src/src/ast.rs` (lines 344-356). -/
inductive AstError where
  | OTHER (msg : String)
  | FORMAT_NOT_MATCH (msg : String)
  | LEXER_FAILED (msg : String)
  | NOT_MATCH (msg : String)
  | NO_TOKEN_MATCH (msg : String)
  | NOT_SUPP_OPER (msg : String)
  | EVAL_NUM_FAILED (msg : String)
  | NOT_ENOUGH_ARGS (msg : String)
  | ARG_NOT_CORRECT (msg : String)
deriving DecidableEq, Repr

/-- Outcome of an evaluation step that is not a success: either an
`AstError` returned through `Result`, or a Rust panic (process abort),
which `i64 % i64` raises on a zero divisor or on `i64::MIN % -1`. -/
inductive Fault where
  | err (e : AstError)
  | panicked (msg : String)
deriving DecidableEq, Repr

/-- The AST node variants of `src/src/ast.rs`: the five operator structs
(each holding its ordered child list) and the four leaf structs (each
holding its token, of which `eval` only ever uses the lexeme, so the
lexeme alone is kept; the operator structs' own tokens are never read by
`eval` and are dropped). -/
inductive Expr where
  | And (args : List Expr)
  | Or (args : List Expr)
  | Mod (args : List Expr)
  | Equals (args : List Expr)
  | In (args : List Expr)
  | Num (lexeme : String)
  | Str (lexeme : String)
  | Var (lexeme : String)
  | Bool (lexeme : String)
deriving Repr

/-- The evaluation context: `Arc<HashMap<String, Value>>`, read-only. -/
def Ctx := List (String × Value)

/-- `i64::MIN`. -/
def i64Min : Int := -9223372036854775808

mutual

/-- `eval(ctx)` for every node variant of `src/src/ast.rs`: dispatches to
the per-operator loops below; leaves are `Num::eval` (lines 261-274),
`Str::eval` (287-291), `Var::eval` (304-314) and `Bool::eval` (327-336). -/
def Expr.eval (ctx : Ctx) : Expr → Except Fault Value
  | .And args => evalAnd ctx args
  | .Or args => evalOr ctx args
  | .Mod args => evalMod ctx args
  | .Equals args => evalEquals ctx args
  | .In args => evalIn ctx args
  | .Num lexeme =>
    match parseI64 lexeme with
    | some i => .ok (.INT i)
    | none => .error (.err (.EVAL_NUM_FAILED "eval number failed!maybe it's not a number"))
  | .Str lexeme => .ok (.STR lexeme)
  | .Var lexeme =>
    match List.lookup lexeme ctx with
    | none => .ok (.BOOL false)
    | some v => .ok v
  | .Bool lexeme =>
    if lexeme.toLower = "true" ∨ lexeme.toLower = "1" then .ok (.BOOL true)
    else .ok (.BOOL false)

/-- The child loop of `And::eval` (lines 35-60): left to right; `Int(0)` or
`Bool(false)` short-circuits to `Bool(false)`; a `Str` child is a format
error; an exhausted loop returns `Bool(true)`. -/
def evalAnd (ctx : Ctx) : List Expr → Except Fault Value
  | [] => .ok (.BOOL true)
  | arg :: rest =>
    match Expr.eval ctx arg with
    | .error e => .error e
    | .ok (.INT i) => if i = 0 then .ok (.BOOL false) else evalAnd ctx rest
    | .ok (.BOOL b) => if !b then .ok (.BOOL false) else evalAnd ctx rest
    | .ok (.STR _) =>
      .error (.err (.FORMAT_NOT_MATCH "Not correct value format in and operator"))

/-- The child loop of `Or::eval` (lines 123-148): left to right; `Int(1)`
or `Bool(false)` (sic) short-circuits to `Bool(true)`; a `Str` child is a
format error; an exhausted loop returns `Bool(false)`. -/
def evalOr (ctx : Ctx) : List Expr → Except Fault Value
  | [] => .ok (.BOOL false)
  | arg :: rest =>
    match Expr.eval ctx arg with
    | .error e => .error e
    | .ok (.INT i) => if i = 1 then .ok (.BOOL true) else evalOr ctx rest
    | .ok (.BOOL b) => if !b then .ok (.BOOL true) else evalOr ctx rest
    | .ok (.STR _) =>
      .error (.err (.FORMAT_NOT_MATCH "Not correct value format in and operator"))

/-- `Mod::eval` (lines 78-105): fewer than two children is a
not-enough-arguments error (children untouched); both of the first two
children must evaluate to `INT`; the result is the Rust `%` — truncated
remainder, which panics on `i2 = 0` and on `i64::MIN % -1`. -/
def evalMod (ctx : Ctx) : List Expr → Except Fault Value
  | a0 :: a1 :: _ =>
    (match Expr.eval ctx a0 with
     | .error e => .error e
     | .ok v0 =>
       match Expr.eval ctx a1 with
       | .error e => .error e
       | .ok v1 =>
         match v0, v1 with
         | .INT i1, .INT i2 =>
           if i2 = 0 then
             .error (.panicked "attempt to calculate the remainder with a divisor of zero")
           else if i1 = i64Min ∧ i2 = -1 then
             .error (.panicked "attempt to calculate the remainder with overflow")
           else .ok (.INT (Int.tmod i1 i2))
         | _, _ => .error (.err (.ARG_NOT_CORRECT "Arg's format is not correct for mod ")))
  | _ => .error (.err (.NOT_ENOUGH_ARGS "Mod does not have enough args!"))

/-- `Equals::eval` (lines 208-248): fewer than two children is an error
(the message is copied from `Mod` in the source); otherwise structural
equality of the first two child values. -/
def evalEquals (ctx : Ctx) : List Expr → Except Fault Value
  | a0 :: a1 :: _ =>
    (match Expr.eval ctx a0 with
     | .error e => .error e
     | .ok v0 =>
       match Expr.eval ctx a1 with
       | .error e => .error e
       | .ok v1 => .ok (.BOOL (v0 = v1)))
  | _ => .error (.err (.NOT_ENOUGH_ARGS "Mod does not have enough args!"))

/-- `In::eval` (lines 166-190): at most one child is a not-enough-arguments
error; the first child is the probe; the loop `for i in 1..(len-1)`
compares the probe against the children at indices `1 .. len-2`, never the
last one. -/
def evalIn (ctx : Ctx) : List Expr → Except Fault Value
  | a0 :: a1 :: rest =>
    (match Expr.eval ctx a0 with
     | .error e => .error e
     | .ok v0 => inLoop ctx v0 (a1 :: rest))
  | _ => .error (.err (.NOT_ENOUGH_ARGS "In operator should have at least two arguments"))

/-- The comparison loop of `In::eval`: runs over all children after the
probe except the final one (`for i in 1..(len-1)`), stopping with
`Bool(true)` on the first structural match. -/
def inLoop (ctx : Ctx) (v0 : Value) : List Expr → Except Fault Value
  | [] => .ok (.BOOL false)
  | [_] => .ok (.BOOL false)
  | arg :: rest =>
    match Expr.eval ctx arg with
    | .error e => .error e
    | .ok v => if v0 = v then .ok (.BOOL true) else inLoop ctx v0 rest

end

/-- Parser state of `src/src/ast.rs` (lines 338-342): a lexer plus one
token of lookahead. -/
structure Parser where
  lexer : Lexer
  look_token : Option Token

/-- `Parser::create` (lines 360-369): `Lexer::create` never fails, so the
`LEXER_FAILED` branch is dead; no lookahead yet. -/
def Parser.create (content : String) : Except AstError Parser :=
  .ok ⟨Lexer.create content, none⟩

/-- `Parser::move_token` (lines 488-509): pull one token from the lexer
(the `crate::token` lexer); `READ_TO_END` means "no more tokens" and
answers `false` with the lookahead left as it was; any other lexer error
becomes `LEXER_FAILED`. -/
def Parser.move_token (p : Parser) : Except AstError (Bool × Parser) :=
  match CrateToken.scan p.lexer with
  | .ok (r, lx) => .ok (true, ⟨lx, some r⟩)
  | .error e =>
    match e with
    | .READ_TO_END _ => .ok (false, p)
    | .OTHER _ => .error (.LEXER_FAILED "Lexer move token failed!")

/-- `Parser::match_term` (lines 511-529): the lookahead must carry the
expected tag; on success advance once more. -/
def Parser.match_term (p : Parser) (tag : TokenTag) : Except AstError Parser :=
  match p.look_token with
  | some s =>
    if s.tag = tag then
      match p.move_token with
      | .error e => .error e
      | .ok (_, p2) => .ok p2
    else .error (.NOT_MATCH "Expected is not match with current")
  | none => .error (.NO_TOKEN_MATCH "There is not token is current parser status")

/-- A pending parser call: the mutual recursion of `Parser::expr` and
`Parser::args_add`'s argument loop, defunctionalised so that `Parser.run`
below is a single function structurally recursive on its step budget and
therefore evaluable by the kernel. -/
inductive PCall where
  | expr (p : Parser)
  | args_loop (p : Parser) (tag : TokenTag) (s : String) (args : List Expr) (iter : Nat)

/-- The mutually recursive core of the parser, `Parser::expr`
(lines 382-441) and the body of `Parser::args_add`'s `for` loop
(lines 443-486), as one function.

`PCall.expr`: on `LEFT_BRACKET` advance, dispatch on the operator tag into
the argument loop (started with the source's `for _ in 0..10000` cap), or
fail with `NOT_SUPP_OPER`; on `NUM`/`STR`/`VAR` wrap the lookahead's lexeme
into the matching leaf node without consuming any token; anything else is
an error.

`PCall.args_loop`: one pass of the loop — advance the lookahead (an
exhausted stream is a format error); a `RIGHT_BRACKET` lookahead is
consumed (one more advance) and the accumulated children close the
operator node; otherwise parse one child `expr` and push it.  `iter = 0`
reproduces the source's loop-cap error.

The source recursion is unbounded in expression depth (it can only exhaust
the call stack); `fuel` decreases at every recursive call and makes the
function total, and `parse` passes a budget large enough that a
terminating parse never runs out. -/
def Parser.run (fuel : Nat) : PCall → Except AstError (Expr × Parser)
  | .expr p =>
    (match fuel with
     | 0 => .error (.OTHER "recursion fuel exhausted")
     | fuel + 1 =>
       match p.look_token with
       | some token =>
         match token.tag with
         | .LEFT_BRACKET =>
           (match p.move_token with
            | .error e => .error e
            | .ok (_, p2) =>
              match p2.look_token with
              | some t2 =>
                match t2.tag with
                | .AND => Parser.run fuel (.args_loop p2 .AND "AND" [] 10000)
                | .OR => Parser.run fuel (.args_loop p2 .OR "OR" [] 10000)
                | .MOD => Parser.run fuel (.args_loop p2 .MOD "MOD" [] 10000)
                | .EQUALS => Parser.run fuel (.args_loop p2 .EQUALS "EQUALS" [] 10000)
                | .IN => Parser.run fuel (.args_loop p2 .IN "IN" [] 10000)
                | _ => .error (.NOT_SUPP_OPER "Not supported operator!")
              -- `self.look_token.as_ref().unwrap()`: unreachable, since
              -- `move_token` never clears a lookahead that was present.
              | none => .error (.OTHER "unwrap on an empty look_token"))
         | .NUM =>
           (match num_create_with_token_and_val .NUM token.lexeme with
            | .error _ => .error (.OTHER "Create num token failed!")
            | .ok tok => .ok (.Num tok.lexeme, p))
         | .STR => .ok (.Str token.lexeme, p)
         | .VAR => .ok (.Var token.lexeme, p)
         | _ => .error (.OTHER "Not find available token tag to process")
       | none => .error (.OTHER "Current token is none!"))
  | .args_loop p tag s args iter =>
    (match fuel with
     | 0 => .error (.OTHER "recursion fuel exhausted")
     | fuel + 1 =>
       if iter = 0 then .error (.OTHER "Serious problem!!!!!!!!Should not be here")
       else
         match p.move_token with
         | .error e => .error e
         | .ok (b, p2) =>
           if !b then
             .error (.FORMAT_NOT_MATCH
               "no right branch packet for and operator but has already went to the end")
           else
             match p2.look_token with
             | some lt =>
               if lt.tag = .RIGHT_BRACKET then
                 match p2.move_token with
                 | .error e => .error e
                 | .ok (_, p3) =>
                   match tag with
                   | .AND => .ok (.And args, p3)
                   | .OR => .ok (.Or args, p3)
                   | .MOD => .ok (.Mod args, p3)
                   | .IN => .ok (.In args, p3)
                   | .EQUALS => .ok (.Equals args, p3)
                   | _ => .error (.NOT_SUPP_OPER "not supported opt")
               else
                 match Parser.run fuel (.expr p2) with
                 | .error e => .error e
                 | .ok (e, p3) =>
                   Parser.run fuel (.args_loop p3 tag s (args ++ [e]) (iter - 1))
             | none =>
               match Parser.run fuel (.expr p2) with
               | .error e => .error e
               | .ok (e, p3) =>
                 Parser.run fuel (.args_loop p3 tag s (args ++ [e]) (iter - 1)))

/-- `Parser::expr` as the caller sees it. -/
def Parser.expr (fuel : Nat) (p : Parser) : Except AstError (Expr × Parser) :=
  Parser.run fuel (.expr p)

/-- `Parser::args_add` (lines 443-486): run the argument loop with the
source's `for _ in 0..10000` iteration cap. -/
def Parser.args_add (fuel : Nat) (p : Parser) (tag : TokenTag) (s : String) :
    Except AstError (Expr × Parser) :=
  Parser.run fuel (.args_loop p tag s [] 10000)

/-- `Parser::parse` (lines 371-380): prime the lookahead (an immediately
exhausted stream is an error), parse one `expr`, then require a
`RIGHT_BRACKET` lookahead.  The step budget is generous: every step of
`Parser.run` either consumes a token (each at least one character of the
input) or closes over a `RIGHT_BRACKET`, so a terminating parse of
`content` makes far fewer than `(content.length + 2) * 10002` recursive
calls and the fuel-exhaustion branch is never taken. -/
def Parser.parse (content : String) : Except AstError Expr :=
  match Parser.create content with
  | .error e => .error e
  | .ok p =>
    match p.move_token with
    | .error e => .error e
    | .ok (b, p2) =>
      if !b then .error (.OTHER "Has already analyzed this rule content to expr")
      else
        match Parser.expr ((content.length + 2) * 10002) p2 with
        | .error e => .error e
        | .ok (e, p3) =>
          match p3.match_term .RIGHT_BRACKET with
          | .error e2 => .error e2
          | .ok _ => .ok e

/-- A value on which the `And` loop keeps going: a nonzero integer or
`true` (anything else stops the loop, one way or another). -/
def Value.andPass : Value → Bool
  | .INT i => decide (i ≠ 0)
  | .BOOL b => b
  | .STR _ => false

/-- A value on which the `Or` loop keeps going: an integer other than `1`,
or `true` (the loop's short-circuit fires on exactly `1` and on `false`). -/
def Value.orPass : Value → Bool
  | .INT i => decide (i ≠ 1)
  | .BOOL b => b
  | .STR _ => false

/-- Pointwise successful evaluation of a child list to a value list. -/
def EvalsTo (ctx : Ctx) (args : List Expr) (vs : List Value) : Prop :=
  List.Forall₂ (fun a v => Expr.eval ctx a = .ok v) args vs

theorem evalAnd_all_pass (ctx : Ctx) (args : List Expr) (vs : List Value)
    (h : EvalsTo ctx args vs) (hp : ∀ v ∈ vs, v.andPass = true) :
    evalAnd ctx args = .ok (.BOOL true) := by
  induction h with
  | nil => rfl
  | cons ha _ ih =>
    rename_i a v args' vs' _
    have hv := hp v (by simp)
    rw [evalAnd, ha]
    cases v with
    | INT i =>
      have : ¬ i = 0 := by simpa [Value.andPass] using hv
      simp only [this, if_false]
      exact ih (fun w hw => hp w (by simp [hw]))
    | BOOL b =>
      have : b = true := by simpa [Value.andPass] using hv
      subst this
      simp only [Bool.not_true, Bool.false_eq_true, if_false]
      exact ih (fun w hw => hp w (by simp [hw]))
    | STR s => simp [Value.andPass] at hv

theorem evalAnd_short (ctx : Ctx) (pre : List Expr) (vs : List Value)
    (a : Expr) (v : Value) (rest : List Expr)
    (h : EvalsTo ctx pre vs) (hp : ∀ w ∈ vs, w.andPass = true)
    (ha : Expr.eval ctx a = .ok v) (hv : v = .INT 0 ∨ v = .BOOL false) :
    evalAnd ctx (pre ++ a :: rest) = .ok (.BOOL false) := by
  induction h with
  | nil =>
    rw [List.nil_append, evalAnd, ha]
    rcases hv with rfl | rfl <;> simp
  | cons hb _ ih =>
    rename_i b w pre' vs' _
    have hw := hp w (by simp)
    rw [List.cons_append, evalAnd, hb]
    cases w with
    | INT i =>
      have : ¬ i = 0 := by simpa [Value.andPass] using hw
      simp only [this, if_false]
      exact ih (fun u hu => hp u (by simp [hu]))
    | BOOL c =>
      have : c = true := by simpa [Value.andPass] using hw
      subst this
      simp only [Bool.not_true, Bool.false_eq_true, if_false]
      exact ih (fun u hu => hp u (by simp [hu]))
    | STR s => simp [Value.andPass] at hw

theorem evalAnd_str (ctx : Ctx) (pre : List Expr) (vs : List Value)
    (a : Expr) (str : String) (rest : List Expr)
    (h : EvalsTo ctx pre vs) (hp : ∀ w ∈ vs, w.andPass = true)
    (ha : Expr.eval ctx a = .ok (.STR str)) :
    evalAnd ctx (pre ++ a :: rest) =
      .error (.err (.FORMAT_NOT_MATCH "Not correct value format in and operator")) := by
  induction h with
  | nil => rw [List.nil_append, evalAnd, ha]
  | cons hb _ ih =>
    rename_i b w pre' vs' _
    have hw := hp w (by simp)
    rw [List.cons_append, evalAnd, hb]
    cases w with
    | INT i =>
      have : ¬ i = 0 := by simpa [Value.andPass] using hw
      simp only [this, if_false]
      exact ih (fun u hu => hp u (by simp [hu]))
    | BOOL c =>
      have : c = true := by simpa [Value.andPass] using hw
      subst this
      simp only [Bool.not_true, Bool.false_eq_true, if_false]
      exact ih (fun u hu => hp u (by simp [hu]))
    | STR s => simp [Value.andPass] at hw

theorem evalOr_all_pass (ctx : Ctx) (args : List Expr) (vs : List Value)
    (h : EvalsTo ctx args vs) (hp : ∀ v ∈ vs, v.orPass = true) :
    evalOr ctx args = .ok (.BOOL false) := by
  induction h with
  | nil => rfl
  | cons ha _ ih =>
    rename_i a v args' vs' _
    have hv := hp v (by simp)
    rw [evalOr, ha]
    cases v with
    | INT i =>
      have : ¬ i = 1 := by simpa [Value.orPass] using hv
      simp only [this, if_false]
      exact ih (fun w hw => hp w (by simp [hw]))
    | BOOL b =>
      have : b = true := by simpa [Value.orPass] using hv
      subst this
      simp only [Bool.not_true, Bool.false_eq_true, if_false]
      exact ih (fun w hw => hp w (by simp [hw]))
    | STR s => simp [Value.orPass] at hv

theorem evalOr_short (ctx : Ctx) (pre : List Expr) (vs : List Value)
    (a : Expr) (v : Value) (rest : List Expr)
    (h : EvalsTo ctx pre vs) (hp : ∀ w ∈ vs, w.orPass = true)
    (ha : Expr.eval ctx a = .ok v) (hv : v = .INT 1 ∨ v = .BOOL false) :
    evalOr ctx (pre ++ a :: rest) = .ok (.BOOL true) := by
  induction h with
  | nil =>
    rw [List.nil_append, evalOr, ha]
    rcases hv with rfl | rfl <;> simp
  | cons hb _ ih =>
    rename_i b w pre' vs' _
    have hw := hp w (by simp)
    rw [List.cons_append, evalOr, hb]
    cases w with
    | INT i =>
      have : ¬ i = 1 := by simpa [Value.orPass] using hw
      simp only [this, if_false]
      exact ih (fun u hu => hp u (by simp [hu]))
    | BOOL c =>
      have : c = true := by simpa [Value.orPass] using hw
      subst this
      simp only [Bool.not_true, Bool.false_eq_true, if_false]
      exact ih (fun u hu => hp u (by simp [hu]))
    | STR s => simp [Value.orPass] at hw

theorem evalOr_str (ctx : Ctx) (pre : List Expr) (vs : List Value)
    (a : Expr) (str : String) (rest : List Expr)
    (h : EvalsTo ctx pre vs) (hp : ∀ w ∈ vs, w.orPass = true)
    (ha : Expr.eval ctx a = .ok (.STR str)) :
    evalOr ctx (pre ++ a :: rest) =
      .error (.err (.FORMAT_NOT_MATCH "Not correct value format in and operator")) := by
  induction h with
  | nil => rw [List.nil_append, evalOr, ha]
  | cons hb _ ih =>
    rename_i b w pre' vs' _
    have hw := hp w (by simp)
    rw [List.cons_append, evalOr, hb]
    cases w with
    | INT i =>
      have : ¬ i = 1 := by simpa [Value.orPass] using hw
      simp only [this, if_false]
      exact ih (fun u hu => hp u (by simp [hu]))
    | BOOL c =>
      have : c = true := by simpa [Value.orPass] using hw
      subst this
      simp only [Bool.not_true, Bool.false_eq_true, if_false]
      exact ih (fun u hu => hp u (by simp [hu]))
    | STR s => simp [Value.orPass] at hw

theorem inLoop_chars (ctx : Ctx) (v0 : Value) (mids : List Expr) (ws : List Value)
    (last : Expr) (h : EvalsTo ctx mids ws) :
    inLoop ctx v0 (mids ++ [last]) = .ok (.BOOL (decide (v0 ∈ ws))) := by
  induction h with
  | nil => simp [inLoop]
  | @cons a v mids' ws' ha htail ih =>
    have hne : mids' ++ [last] ≠ [] := by simp
    rw [List.cons_append]
    cases hm : mids' ++ [last] with
    | nil => exact absurd hm hne
    | cons b bs =>
      rw [inLoop, ha]
      by_cases hv : v0 = v
      · subst hv
        simp
      · simp only [hv, if_false]
        rw [← hm, ih]
        simp [hv]
      · simp

theorem get?_eq_some_getD (cs : List Char) (n : Nat) (h : n < cs.length) :
    List.get? cs n = some (cs.getD n ' ') := by
  cases hg : List.get? cs n with
  | none =>
    rw [List.get?_eq_none] at hg
    omega
  | some x =>
    have : cs.getD n ' ' = x := by
      simp [List.getD_eq_getElem?_getD, ← List.get?_eq_getElem?, hg]
    rw [this]

theorem num_loop_go_end (fuel : Nat) : ∀ (l : Lexer) (v : Nat),
    0 ≤ l.cur_step + 1 →
    (l.cur_step + 1).toNat ≤ l.chars.length →
    l.chars.length + 1 ≤ fuel + (l.cur_step + 1).toNat →
    (∀ j, (l.cur_step + 1).toNat ≤ j → j < l.chars.length →
      (l.chars.getD j ' ').isDigit = true) →
    num_loop_go fuel l v = .error (.READ_TO_END "Has read to the end") := by
  induction fuel with
  | zero =>
    intro l v h0 hle hfuel hdig
    omega
  | succ fuel ih =>
    intro l v h0 hle hfuel hdig
    rw [num_loop_go]
    simp only [Lexer.read, charAt]
    by_cases hlt : (l.cur_step + 1).toNat < l.chars.length
    · have hget := get?_eq_some_getD l.chars (l.cur_step + 1).toNat hlt
      have hnotneg : ¬ (l.cur_step + 1 < 0) := by omega
      simp only [hnotneg, if_false, hget]
      have hd : (l.chars.getD (l.cur_step + 1).toNat ' ').isDigit = true :=
        hdig _ (le_refl _) hlt
      simp only [Option.getD_some, hd, if_true]
      apply ih
      · dsimp only
        omega
      · dsimp only
        omega
      · dsimp only
        omega
      · dsimp only
        intro j hj hjl
        exact hdig j (by omega) hjl
    · have h1 : List.get? l.chars (l.cur_step + 1).toNat = none :=
        List.get?_eq_none.mpr (Nat.le_of_not_lt hlt)
      have h2 : l.chars[(l.cur_step + 1).toNat]? = none :=
        List.getElem?_eq_none (Nat.le_of_not_lt hlt)
      simp [h1, h2]

/-- C1.  `Mod::eval` does return `Int(a % b)` for integer operands —
`"(MOD 10 3)"` parses to that node and evaluates to `Int(1)` — but with a
zero divisor the source computes `i1 % i2` with no check, and the Rust
`i64` remainder operator aborts the process (a panic, modelled as the
distinguished `Fault.panicked` outcome), so `"(MOD 10 0)"` crashes instead
of returning the evaluation error that the claim and the spec require. -/
theorem c1_mod_zero_divisor_panics :
    Parser.parse "(MOD 10 3)" = .ok (.Mod [.Num "10", .Num "3"])
    ∧ Expr.eval [] (.Mod [.Num "10", .Num "3"]) = .ok (.INT 1)
    ∧ Parser.parse "(MOD 10 0)" = .ok (.Mod [.Num "10", .Num "0"])
    ∧ Expr.eval [] (.Mod [.Num "10", .Num "0"]) =
        .error (.panicked "attempt to calculate the remainder with a divisor of zero") :=
  ⟨rfl, rfl, rfl, rfl⟩

/-- C3.  In the lexer of `src/src/ast/token.rs`, `(` and `)` do NOT get a
dedicated tag distinct from the catch-all: its `TokenTag` enum has no
parenthesis variant at all and `scan` emits `OTHER` for both characters.
The dedicated tags exist only in the `crate::token` module that the parser
imports, which is absent from the sources and is modelled from the spec as
`CrateToken.scan` (last two conjuncts). -/
theorem c3_snapshot_parens_are_other :
    AstToken.scan (Lexer.create "(") = .ok (⟨.OTHER, "("⟩, ⟨['('], 0, some '('⟩)
    ∧ AstToken.scan (Lexer.create ")") = .ok (⟨.OTHER, ")"⟩, ⟨[')'], 0, some ')'⟩)
    ∧ (TokenTag.OTHER ≠ TokenTag.LEFT_BRACKET ∧ TokenTag.OTHER ≠ TokenTag.RIGHT_BRACKET)
    ∧ CrateToken.scan (Lexer.create "(") = .ok (⟨.LEFT_BRACKET, "("⟩, ⟨['('], 0, some '('⟩)
    ∧ CrateToken.scan (Lexer.create ")") = .ok (⟨.RIGHT_BRACKET, ")"⟩, ⟨[')'], 0, some ')'⟩) :=
  ⟨rfl, rfl, ⟨by decide, by decide⟩, rfl, rfl⟩

/-- C7.  Arity is not enforced by the parser: `"(MOD 1)"` parses
successfully into a `Mod` node with exactly one child, and `Mod::eval`
returns the not-enough-arguments error for every argument list shorter
than two, under every context, without evaluating any child (the error is
the same whatever the children are). -/
theorem c7_mod_arity_checked_at_eval :
    Parser.parse "(MOD 1)" = .ok (.Mod [.Num "1"])
    ∧ (∀ (ctx : Ctx) (args : List Expr), args.length < 2 →
        Expr.eval ctx (.Mod args) =
          .error (.err (.NOT_ENOUGH_ARGS "Mod does not have enough args!"))) := by
  refine ⟨rfl, ?_⟩
  intro ctx args h
  match args with
  | [] => rfl
  | [a] => rfl
  | a :: b :: t =>
    rw [List.length_cons, List.length_cons] at h
    omega

/-- Witness for C7 at the parsed node `Mod [Num "1"]` and the empty
context. -/
theorem c7_mod_arity_checked_at_eval_witness :
    Expr.eval [] (.Mod [.Num "1"]) =
      .error (.err (.NOT_ENOUGH_ARGS "Mod does not have enough args!")) :=
  c7_mod_arity_checked_at_eval.2 [] [.Num "1"] (by decide)

/-- C8.  `Var::eval` never returns an error: a name missing from the
context yields `Bool(false)`, a present name yields the stored value, and
in particular every variable reads as `Bool(false)` against the empty
context. -/
theorem c8_var_never_errors :
    (∀ (ctx : Ctx) (name : String), List.lookup name ctx = none →
      Expr.eval ctx (.Var name) = .ok (.BOOL false))
    ∧ (∀ (ctx : Ctx) (name : String) (v : Value), List.lookup name ctx = some v →
        Expr.eval ctx (.Var name) = .ok v)
    ∧ (∀ (ctx : Ctx) (name : String), ∃ v, Expr.eval ctx (.Var name) = .ok v)
    ∧ (∀ name : String, Expr.eval [] (.Var name) = .ok (.BOOL false)) := by
  refine ⟨?_, ?_, ?_, ?_⟩
  · intro ctx name h
    simp [Expr.eval, h]
  · intro ctx name v h
    simp [Expr.eval, h]
  · intro ctx name
    cases h : List.lookup name ctx with
    | none => exact ⟨.BOOL false, by simp [Expr.eval, h]⟩
    | some v => exact ⟨v, by simp [Expr.eval, h]⟩
  · intro name
    rfl

/-- Witness for C8: a present name returns the stored value, an absent
name returns `Bool(false)`. -/
theorem c8_var_never_errors_witness :
    Expr.eval [("x", .INT 7)] (.Var "x") = .ok (.INT 7)
    ∧ Expr.eval [("x", .INT 7)] (.Var "y") = .ok (.BOOL false) :=
  ⟨c8_var_never_errors.2.1 [("x", .INT 7)] "x" (.INT 7) rfl,
   c8_var_never_errors.1 [("x", .INT 7)] "y" rfl⟩

/-- C9.  After a parenthesised child expression, `args_add` advances the
lookahead once more before examining it, so the token right after the
child's closing parenthesis is consumed without being parsed:
`"(AND (OR) 1)"` parses to an `And` node whose only child is the empty
`Or` node (the argument `1` is silently dropped), while `"(AND (OR))"`
fails with the format-not-matched error because that extra advance
swallows the outer closing parenthesis. -/
theorem c9_token_after_paren_child_skipped :
    Parser.parse "(AND (OR) 1)" = .ok (.And [.Or []])
    ∧ Parser.parse "(AND (OR))" =
        .error (.FORMAT_NOT_MATCH
          "no right branch packet for and operator but has already went to the end") :=
  ⟨rfl, rfl⟩

/-- C2.  `In::eval` with at most one child is a not-enough-arguments
error.  Otherwise the first child is the probe and the loop
`for i in 1..(len-1)` compares it against the children at indices
`1 .. len-2` only: in the second conjunct the final child `last` carries
no hypothesis at all — whatever it is, it is never compared — and the
result is exactly membership of the probe value among the values of the
middle children.  Hence `"(IN ${id} 2 3)"` with `{id: Int(3)}` is
`Bool(false)`: only `2` is compared, `3` is never reached. -/
theorem c2_in_excludes_last_argument :
    (∀ (ctx : Ctx) (args : List Expr), args.length ≤ 1 →
      Expr.eval ctx (.In args) =
        .error (.err (.NOT_ENOUGH_ARGS "In operator should have at least two arguments")))
    ∧ (∀ (ctx : Ctx) (a0 : Expr) (v0 : Value) (mids : List Expr) (ws : List Value)
        (last : Expr), Expr.eval ctx a0 = .ok v0 → EvalsTo ctx mids ws →
        Expr.eval ctx (.In (a0 :: (mids ++ [last]))) = .ok (.BOOL (decide (v0 ∈ ws))))
    ∧ Parser.parse "(IN ${id} 2 3)" = .ok (.In [.Var "id", .Num "2", .Num "3"])
    ∧ Expr.eval [("id", .INT 3)] (.In [.Var "id", .Num "2", .Num "3"]) = .ok (.BOOL false) := by
  refine ⟨?_, ?_, rfl, rfl⟩
  · intro ctx args h
    match args with
    | [] => rfl
    | [a] => rfl
    | a :: b :: t =>
      rw [List.length_cons, List.length_cons] at h
      omega
  · intro ctx a0 v0 mids ws last h0 hev
    obtain ⟨b, bs, hshape⟩ : ∃ b bs, mids ++ [last] = b :: bs := by
      cases mids with
      | nil => exact ⟨last, [], rfl⟩
      | cons m ms => exact ⟨m, ms ++ [last], rfl⟩
    show evalIn ctx (a0 :: (mids ++ [last])) = _
    rw [hshape, evalIn, h0, ← hshape]
    exact inLoop_chars ctx v0 mids ws last hev

/-- Witness for C2: the arity error at a single-child node, and the
probe-vs-middle comparison at the parsed `"(IN ${id} 2 3)"` node with
`{id: Int(3)}`, where the excluded last argument is the only one that
would match. -/
theorem c2_in_excludes_last_argument_witness :
    Expr.eval [] (.In [.Num "1"]) =
      .error (.err (.NOT_ENOUGH_ARGS "In operator should have at least two arguments"))
    ∧ Expr.eval [("id", .INT 3)] (.In [.Var "id", .Num "2", .Num "3"]) =
        .ok (.BOOL (decide ((Value.INT 3) ∈ [Value.INT 2]))) :=
  ⟨c2_in_excludes_last_argument.1 [] [.Num "1"] (by decide),
   c2_in_excludes_last_argument.2.1 [("id", .INT 3)] (.Var "id") (.INT 3)
     [.Num "2"] [.INT 2] (.Num "3") rfl
     (List.Forall₂.cons rfl List.Forall₂.nil)⟩

/-- C5.  `And::eval` walks the children left to right: while every value
is a nonzero integer or `true` it keeps going and ends with `Bool(true)`
(vacuously for zero children, so `"(AND)"` is `Bool(true)`); the first
child valued `Int(0)` or `Bool(false)` stops it with `Bool(false)`
whatever follows; the first `Str` child stops it with the format error. -/
theorem c5_and_short_circuit :
    Parser.parse "(AND)" = .ok (.And [])
    ∧ (∀ ctx : Ctx, Expr.eval ctx (.And []) = .ok (.BOOL true))
    ∧ (∀ (ctx : Ctx) (args : List Expr) (vs : List Value), EvalsTo ctx args vs →
        (∀ v ∈ vs, v.andPass = true) → Expr.eval ctx (.And args) = .ok (.BOOL true))
    ∧ (∀ (ctx : Ctx) (pre : List Expr) (vs : List Value) (a : Expr) (v : Value)
        (rest : List Expr), EvalsTo ctx pre vs → (∀ w ∈ vs, w.andPass = true) →
        Expr.eval ctx a = .ok v → (v = .INT 0 ∨ v = .BOOL false) →
        Expr.eval ctx (.And (pre ++ a :: rest)) = .ok (.BOOL false))
    ∧ (∀ (ctx : Ctx) (pre : List Expr) (vs : List Value) (a : Expr) (str : String)
        (rest : List Expr), EvalsTo ctx pre vs → (∀ w ∈ vs, w.andPass = true) →
        Expr.eval ctx a = .ok (.STR str) →
        Expr.eval ctx (.And (pre ++ a :: rest)) =
          .error (.err (.FORMAT_NOT_MATCH "Not correct value format in and operator"))) :=
  ⟨rfl, fun _ => rfl, evalAnd_all_pass, evalAnd_short, evalAnd_str⟩

/-- Witness for C5: no short-circuit over passing values; a short-circuit
on `Int(0)` that never reaches a would-be-error child; a format error on a
string child. -/
theorem c5_and_short_circuit_witness :
    Expr.eval [] (.And [.Num "5", .Num "7"]) = .ok (.BOOL true)
    ∧ Expr.eval [] (.And [.Num "5", .Num "0", .Str "x"]) = .ok (.BOOL false)
    ∧ Expr.eval [] (.And [.Num "5", .Str "x", .Num "0"]) =
        .error (.err (.FORMAT_NOT_MATCH "Not correct value format in and operator")) :=
  ⟨c5_and_short_circuit.2.2.1 [] [.Num "5", .Num "7"] [.INT 5, .INT 7]
     (List.Forall₂.cons rfl (List.Forall₂.cons rfl List.Forall₂.nil)) (by decide),
   c5_and_short_circuit.2.2.2.1 [] [.Num "5"] [.INT 5] (.Num "0") (.INT 0) [.Str "x"]
     (List.Forall₂.cons rfl List.Forall₂.nil) (by decide) rfl (Or.inl rfl),
   c5_and_short_circuit.2.2.2.2 [] [.Num "5"] [.INT 5] (.Str "x") "x" [.Num "0"]
     (List.Forall₂.cons rfl List.Forall₂.nil) (by decide) rfl⟩

/-- C4.  `Or::eval` walks the children left to right: while every value is
an integer other than `1`, or `true`, it keeps going and ends with
`Bool(false)` (so `"(OR)"` is `Bool(false)`); the first child valued
exactly `Int(1)` or exactly `Bool(false)` — the source's documented
asymmetry — stops it with `Bool(true)` whatever follows; the first `Str`
child stops it with the format error. -/
theorem c4_or_short_circuit :
    Parser.parse "(OR)" = .ok (.Or [])
    ∧ (∀ ctx : Ctx, Expr.eval ctx (.Or []) = .ok (.BOOL false))
    ∧ (∀ (ctx : Ctx) (args : List Expr) (vs : List Value), EvalsTo ctx args vs →
        (∀ v ∈ vs, v.orPass = true) → Expr.eval ctx (.Or args) = .ok (.BOOL false))
    ∧ (∀ (ctx : Ctx) (pre : List Expr) (vs : List Value) (a : Expr) (v : Value)
        (rest : List Expr), EvalsTo ctx pre vs → (∀ w ∈ vs, w.orPass = true) →
        Expr.eval ctx a = .ok v → (v = .INT 1 ∨ v = .BOOL false) →
        Expr.eval ctx (.Or (pre ++ a :: rest)) = .ok (.BOOL true))
    ∧ (∀ (ctx : Ctx) (pre : List Expr) (vs : List Value) (a : Expr) (str : String)
        (rest : List Expr), EvalsTo ctx pre vs → (∀ w ∈ vs, w.orPass = true) →
        Expr.eval ctx a = .ok (.STR str) →
        Expr.eval ctx (.Or (pre ++ a :: rest)) =
          .error (.err (.FORMAT_NOT_MATCH "Not correct value format in and operator"))) :=
  ⟨rfl, fun _ => rfl, evalOr_all_pass, evalOr_short, evalOr_str⟩

/-- Witness for C4: no trigger over passing values (note `Int(5)` passes
and `Bool(true)` passes); a short-circuit on `Bool(false)`; a format error
on a string child. -/
theorem c4_or_short_circuit_witness :
    Expr.eval [("b", .BOOL true)] (.Or [.Num "5", .Var "b"]) = .ok (.BOOL false)
    ∧ Expr.eval [("b", .BOOL false)] (.Or [.Num "5", .Var "b", .Str "x"]) = .ok (.BOOL true)
    ∧ Expr.eval [] (.Or [.Num "5", .Str "x", .Num "1"]) =
        .error (.err (.FORMAT_NOT_MATCH "Not correct value format in and operator")) :=
  ⟨c4_or_short_circuit.2.2.1 [("b", .BOOL true)] [.Num "5", .Var "b"] [.INT 5, .BOOL true]
     (List.Forall₂.cons rfl (List.Forall₂.cons rfl List.Forall₂.nil)) (by decide),
   c4_or_short_circuit.2.2.2.1 [("b", .BOOL false)] [.Num "5"] [.INT 5] (.Var "b")
     (.BOOL false) [.Str "x"]
     (List.Forall₂.cons rfl List.Forall₂.nil) (by decide) rfl (Or.inr rfl),
   c4_or_short_circuit.2.2.2.2 [] [.Num "5"] [.INT 5] (.Str "x") "x" [.Num "1"]
     (List.Forall₂.cons rfl List.Forall₂.nil) (by decide) rfl⟩

/-- C6 counterexample.  `"ANDX"` does NOT fail the keyword match: the
branch only checks the keyword's own letters (`N`, `D` after the initial
`A`) and never that a delimiter follows, so the first token scanned from
`"ANDX"` is the `AND` operator token — not `OTHER('A')` as claimed. -/
theorem c6_andx_first_token_is_and :
    AstToken.scan (Lexer.create "ANDX") =
      .ok (⟨.AND, "AND"⟩, ⟨['A', 'N', 'D', 'X'], 2, some ' '⟩)
    ∧ (Token.mk .AND "AND") ≠ (Token.mk .OTHER "A") :=
  ⟨rfl, by decide⟩

/-- C6 amended.  Whenever a reserved-keyword match started on an initial
letter (`I`, `M`, `A`, `O`, `E`) fails at some present character, `scan`
back-reads the cursor to the initial letter and emits a one-character
`OTHER` token carrying that initial letter, leaving the characters after
the initial letter to be scanned as further tokens (the conjuncts cover a
mismatch at every letter position of all five keywords, for an arbitrary
remaining input).  But the match is prefix-only, so `"ANDX"` does not
fail: its first token is `AND` and the `X` is scanned next as `OTHER('X')`;
an input such as `"ANX"`, which fails at the third letter, is scanned as
`OTHER('A')`, then `OTHER('N')`, then `OTHER('X')`. -/
theorem c6_keyword_backtrack_amended :
    (∀ (c : Char) (rest : List Char), c ≠ 'N' →
      AstToken.scan ⟨'I' :: c :: rest, -1, none⟩ =
        .ok (⟨.OTHER, "I"⟩, ⟨'I' :: c :: rest, 0, some 'I'⟩))
    ∧ (∀ (c : Char) (rest : List Char), c ≠ 'O' →
        AstToken.scan ⟨'M' :: c :: rest, -1, none⟩ =
          .ok (⟨.OTHER, "M"⟩, ⟨'M' :: c :: rest, 0, some 'M'⟩))
    ∧ (∀ (c : Char) (rest : List Char), c ≠ 'D' →
        AstToken.scan ⟨'M' :: 'O' :: c :: rest, -1, none⟩ =
          .ok (⟨.OTHER, "M"⟩, ⟨'M' :: 'O' :: c :: rest, 0, some 'M'⟩))
    ∧ (∀ (c : Char) (rest : List Char), c ≠ 'N' →
        AstToken.scan ⟨'A' :: c :: rest, -1, none⟩ =
          .ok (⟨.OTHER, "A"⟩, ⟨'A' :: c :: rest, 0, some 'A'⟩))
    ∧ (∀ (c : Char) (rest : List Char), c ≠ 'D' →
        AstToken.scan ⟨'A' :: 'N' :: c :: rest, -1, none⟩ =
          .ok (⟨.OTHER, "A"⟩, ⟨'A' :: 'N' :: c :: rest, 0, some 'A'⟩))
    ∧ (∀ (c : Char) (rest : List Char), c ≠ 'R' →
        AstToken.scan ⟨'O' :: c :: rest, -1, none⟩ =
          .ok (⟨.OTHER, "O"⟩, ⟨'O' :: c :: rest, 0, some 'O'⟩))
    ∧ (∀ (c : Char) (rest : List Char), c ≠ 'Q' →
        AstToken.scan ⟨'E' :: c :: rest, -1, none⟩ =
          .ok (⟨.OTHER, "E"⟩, ⟨'E' :: c :: rest, 0, some 'E'⟩))
    ∧ (∀ (c : Char) (rest : List Char), c ≠ 'U' →
        AstToken.scan ⟨'E' :: 'Q' :: c :: rest, -1, none⟩ =
          .ok (⟨.OTHER, "E"⟩, ⟨'E' :: 'Q' :: c :: rest, 0, some 'E'⟩))
    ∧ (∀ (c : Char) (rest : List Char), c ≠ 'A' →
        AstToken.scan ⟨'E' :: 'Q' :: 'U' :: c :: rest, -1, none⟩ =
          .ok (⟨.OTHER, "E"⟩, ⟨'E' :: 'Q' :: 'U' :: c :: rest, 0, some 'E'⟩))
    ∧ (∀ (c : Char) (rest : List Char), c ≠ 'L' →
        AstToken.scan ⟨'E' :: 'Q' :: 'U' :: 'A' :: c :: rest, -1, none⟩ =
          .ok (⟨.OTHER, "E"⟩, ⟨'E' :: 'Q' :: 'U' :: 'A' :: c :: rest, 0, some 'E'⟩))
    ∧ (∀ (c : Char) (rest : List Char), c ≠ 'S' →
        AstToken.scan ⟨'E' :: 'Q' :: 'U' :: 'A' :: 'L' :: c :: rest, -1, none⟩ =
          .ok (⟨.OTHER, "E"⟩, ⟨'E' :: 'Q' :: 'U' :: 'A' :: 'L' :: c :: rest, 0, some 'E'⟩))
    ∧ AstToken.scan (Lexer.create "ANX") =
        .ok (⟨.OTHER, "A"⟩, ⟨['A', 'N', 'X'], 0, some 'A'⟩)
    ∧ AstToken.scan ⟨['A', 'N', 'X'], 0, some 'A'⟩ =
        .ok (⟨.OTHER, "N"⟩, ⟨['A', 'N', 'X'], 1, some 'N'⟩)
    ∧ AstToken.scan ⟨['A', 'N', 'X'], 1, some 'N'⟩ =
        .ok (⟨.OTHER, "X"⟩, ⟨['A', 'N', 'X'], 2, some 'X'⟩)
    ∧ AstToken.scan (Lexer.create "ANDX") =
        .ok (⟨.AND, "AND"⟩, ⟨['A', 'N', 'D', 'X'], 2, some ' '⟩)
    ∧ AstToken.scan ⟨['A', 'N', 'D', 'X'], 2, some ' '⟩ =
        .ok (⟨.OTHER, "X"⟩, ⟨['A', 'N', 'D', 'X'], 3, some 'X'⟩) := by
  refine ⟨?_, ?_, ?_, ?_, ?_, ?_, ?_, ?_, ?_, ?_, ?_, rfl, rfl, rfl, rfl, rfl⟩
  all_goals
    intro c rest hc
    simp [AstToken.scan, Lexer.skip_blank_and_read, skip_blank_go, Lexer.read, charAt,
      List.get?, Lexer.key_branch, Lexer.read_next_seq, Lexer.read_next,
      Lexer.back_read, back_read_go, hc]

/-- Witness for C6 at a concrete mismatch: `"IX"` fails the `IN` match at
its second letter and scans as `OTHER('I')` with the cursor restored. -/
theorem c6_keyword_backtrack_amended_witness :
    AstToken.scan ⟨['I', 'X'], -1, none⟩ =
      .ok (⟨.OTHER, "I"⟩, ⟨['I', 'X'], 0, some 'I'⟩) :=
  c6_keyword_backtrack_amended.1 'X' [] (by decide)

/-- C10.  When a `scan` call reaches a position from which every remaining
character to the end of the input is a digit (and at least one remains —
exactly what happens at the trailing digit run of an input whose last
character is a digit), the numeric loop's look-ahead `read` past the final
digit hits the end of the input and the `READ_TO_END` error propagates out
of `scan`: the trailing number is never emitted as a `NUM` token. -/
theorem c10_trailing_number_never_emitted :
    ∀ l : Lexer, 0 ≤ l.cur_step + 1 →
    (l.cur_step + 1).toNat < l.chars.length →
    (∀ j, (l.cur_step + 1).toNat ≤ j → j < l.chars.length →
      (l.chars.getD j ' ').isDigit = true) →
    AstToken.scan l = .error (.READ_TO_END "Has read to the end") := by
  intro l h0 hlt hdig
  have hd : (l.chars.getD (l.cur_step + 1).toNat ' ').isDigit = true :=
    hdig _ le_rfl hlt
  have hget := get?_eq_some_getD l.chars (l.cur_step + 1).toNat hlt
  have hnotneg : ¬ (l.cur_step + 1 < 0) := by omega
  rw [AstToken.scan, Lexer.skip_blank_and_read,
    show l.chars.length + 2 = (l.chars.length + 1) + 1 from rfl, skip_blank_go]
  simp only [Lexer.read, charAt, hnotneg, if_false, hget]
  have hsp : ¬ ((l.chars.getD (l.cur_step + 1).toNat ' ') = ' ' ∨
      (l.chars.getD (l.cur_step + 1).toNat ' ') = '\t') := by
    rintro (he | he) <;> rw [he] at hd <;> exact absurd hd (by decide)
  simp only [Option.getD_some, hsp, if_false]
  split
  · rename_i heq
    injection heq with heq
    rw [heq] at hd
    exact absurd hd (by decide)
  · rename_i heq
    injection heq with heq
    rw [heq] at hd
    exact absurd hd (by decide)
  · rename_i heq
    injection heq with heq
    rw [heq] at hd
    exact absurd hd (by decide)
  · rename_i heq
    injection heq with heq
    rw [heq] at hd
    exact absurd hd (by decide)
  · rename_i heq
    injection heq with heq
    rw [heq] at hd
    exact absurd hd (by decide)
  · simp only [Option.getD_some, hd, if_true]
    rw [show (Lexer.num_loop ⟨l.chars, l.cur_step + 1,
        some (l.chars.getD (l.cur_step + 1).toNat ' ')⟩ 0) = _ from rfl,
      Lexer.num_loop]
    rw [num_loop_go_end (l.chars.length + 2)
      ⟨l.chars, l.cur_step + 1, some (l.chars.getD (l.cur_step + 1).toNat ' ')⟩ 0
      (by dsimp only; omega) (by dsimp only; omega) (by dsimp only; omega)
      (by dsimp only; intro j hj hjl; exact hdig j (by omega) hjl)]

/-- Witness for C10: the whole input `"123"` ends in a digit; its very
first `scan` reaches the trailing digit run and yields the end-of-input
signal, so no `NUM` token for `123` is ever produced. -/
theorem c10_trailing_number_never_emitted_witness :
    AstToken.scan (Lexer.create "123") = .error (.READ_TO_END "Has read to the end") :=
  c10_trailing_number_never_emitted (Lexer.create "123") (by decide) (by decide)
    (by decide)

end RsLisp
